import Mathlib

/-!
A shallow embedding of `tensorboard/plugins/debugger_v2/debug_data_multiplexer.py`.

The module is a façade (`DebuggerV2EventMultiplexer`) over an external
`DebugDataReader` collaborator.  The reader is modelled as a record of the
data it serves (`executions(digest=True)`, the source-file key sequence,
`source_lines`, `starting_wall_time`); wall-clock timestamps are carried
opaquely as integers since the façade only copies them.  Attempting the
construction `debug_events_reader.DebugDataReader(logdir)` is an external
effect whose outcome depends on the logdir contents at call time, so each
call that may construct takes a `ConstructResult` argument describing that
outcome.  Each method returns the updated façade, an effect counter
(construction attempts and `run_in_background` launches made during the
call), and the Python result: `Except PyError α` for raise-or-return, with
`Option` for methods that return `None` on an unknown run.
-/

namespace DebuggerV2

/-- `DEFAULT_DEBUGGER_RUN_NAME` from the source: the single reserved run name. -/
def DEFAULT_DEBUGGER_RUN_NAME : String := "__default_debugger_run__"

/-- Python exceptions raised by the module, tagged with their message. -/
inductive PyError where
  | valueError (msg : String)
  | indexError (msg : String)
  | attributeError (msg : String)
  | notImplementedError (msg : String)
deriving Repr, DecidableEq

/-- An execution digest as served by the reader: wall time (opaque), op type,
and the ordered output tensor device ids. -/
structure ExecutionDigest where
  wall_time : Int
  op_type : String
  output_tensor_device_ids : List Nat
deriving Repr, DecidableEq

/-- The plain serializable record produced by `_execution_digest_to_json`. -/
structure ExecutionDigestJson where
  wall_time : Int
  op_type : String
  output_tensor_device_ids : List Nat
deriving Repr, DecidableEq

/-- `_execution_digest_to_json`: copy the three fields into a plain record. -/
def execution_digest_to_json (d : ExecutionDigest) : ExecutionDigestJson :=
  { wall_time := d.wall_time
    op_type := d.op_type
    output_tensor_device_ids := d.output_tensor_device_ids }

/-- Model of the external `debug_events_reader.DebugDataReader` collaborator:
the data its query surface serves at the moment of a façade call. -/
structure DebugDataReader where
  execution_digests : List ExecutionDigest
  source_file_keys : List (String × String)
  source_lines : String → String → List String
  starting_wall_time : Int

/-- The façade state: the logdir given to `__init__` and the `_reader` field. -/
structure DebuggerV2EventMultiplexer where
  logdir : String
  reader : Option DebugDataReader

/-- `__init__`: store the logdir, `_reader` starts as `None`. -/
def mkMultiplexer (logdir : String) : DebuggerV2EventMultiplexer :=
  { logdir := logdir, reader := none }

/-- Outcome of attempting `debug_events_reader.DebugDataReader(logdir)`:
either a reader (with a flag for whether it has the `update` attribute that
`run_in_background(self._reader.update)` accesses), an `AttributeError`
(reader class missing from the module), or a `ValueError` (no DebugEvent
file set in the logdir). -/
inductive ConstructResult where
  | ok (r : DebugDataReader) (hasUpdate : Bool)
  | attributeError
  | valueError

/-- Externally observable effects of one façade call: how many times reader
construction was attempted and how many background tasks were launched. -/
structure Effects where
  constructionAttempts : Nat
  backgroundLaunches : Nat
deriving Repr, DecidableEq

/-- The non-empty `Runs()` result `{DEFAULT_DEBUGGER_RUN_NAME: {"debugger-v2": []}}`. -/
def defaultRuns : List (String × List (String × List String)) :=
  [(DEFAULT_DEBUGGER_RUN_NAME, [("debugger-v2", [])])]

/-- `Runs()`.  If `_reader` is `None`, attempt construction: on
`AttributeError` or `ValueError` return `{}` (the reader reference is left
unchanged in the class-missing and no-data cases, but has already been
assigned when only the `update` attribute is missing); on success assign the
reader, launch `run_in_background(self._reader.update)`, and fall through to
the default mapping. -/
def Runs (env : ConstructResult) (m : DebuggerV2EventMultiplexer) :
    DebuggerV2EventMultiplexer × Effects × List (String × List (String × List String)) :=
  match m.reader with
  | some _ => (m, ⟨0, 0⟩, defaultRuns)
  | none =>
    match env with
    | .attributeError => (m, ⟨1, 0⟩, [])
    | .valueError => (m, ⟨1, 0⟩, [])
    | .ok r hasUpdate =>
      if hasUpdate then
        ({ m with reader := some r }, ⟨1, 1⟩, defaultRuns)
      else
        ({ m with reader := some r }, ⟨1, 0⟩, [])

/-- `FirstEventTimestamp(run)`: raise `ValueError` if `_reader` is `None`,
raise `ValueError` on a run name other than the reserved one, else return
`self._reader.starting_wall_time()`. -/
def FirstEventTimestamp (m : DebuggerV2EventMultiplexer) (run : String) :
    Except PyError Int :=
  match m.reader with
  | none => .error (.valueError "No tfdbg2 runs exists.")
  | some r =>
    if run ≠ DEFAULT_DEBUGGER_RUN_NAME then
      .error (.valueError
        ("Expected run name to be " ++ DEFAULT_DEBUGGER_RUN_NAME ++ ", but got " ++ run))
    else
      .ok r.starting_wall_time

/-- `PluginRunToTagToContent(plugin_name)`: unconditionally raises. -/
def PluginRunToTagToContent (_m : DebuggerV2EventMultiplexer) (_plugin_name : String) :
    Except PyError Unit :=
  .error (.notImplementedError
    "DebugDataMultiplexer.PluginRunToTagToContent() has not been implemented yet.")

/-- The success payload of `ExecutionDigests`: the dict with keys `begin`,
`end`, `num_digests`, `execution_digests`. -/
structure ExecutionDigestsResult where
  begin_ : Int
  end_ : Int
  num_digests : Nat
  execution_digests : List ExecutionDigestJson
deriving Repr, DecidableEq

/-- The raise-or-return part of `ExecutionDigests`, acting on the post-`Runs`
reader reference and the mapping `Runs()` returned: return `None` on an
unknown run; validate `begin >= 0`, `end <= len(digests)`, and
`not (end >= 0 and end < begin)`; resolve a negative `end` to the digest
count; slice `execution_digests[begin:end]` and serialize. -/
def executionDigestsResult (rd : Option DebugDataReader)
    (runs : List (String × List (String × List String))) (run : String) (b e : Int) :
    Except PyError (Option ExecutionDigestsResult) :=
  if (runs.map Prod.fst).contains run then
    match rd with
    | none => .error (.attributeError "NoneType object has no attribute executions")
    | some r =>
      let digests := r.execution_digests
      if b < 0 then
        .error (.indexError ("Invalid begin index (" ++ toString b ++ ")"))
      else if (digests.length : Int) < e then
        .error (.indexError
          ("end index (" ++ toString e ++ ") out of bounds ("
            ++ toString digests.length ++ ")"))
      else if 0 ≤ e ∧ e < b then
        .error (.valueError
          ("end index (" ++ toString e ++ ") is unexpected less than begin index ("
            ++ toString b ++ ")"))
      else
        let e2 : Int := if e < 0 then (digests.length : Int) else e
        .ok (some
          { begin_ := b
            end_ := e2
            num_digests := digests.length
            execution_digests :=
              ((digests.take e2.toNat).drop b.toNat).map execution_digest_to_json })
  else
    .ok none

/-- `ExecutionDigests(run, begin, end)`: call `Runs()` (whose state change and
effects are those of this call), then compute the result from the post-call
reader and the returned mapping. -/
def ExecutionDigests (env : ConstructResult) (m : DebuggerV2EventMultiplexer)
    (run : String) (b e : Int) :
    DebuggerV2EventMultiplexer × Effects × Except PyError (Option ExecutionDigestsResult) :=
  ((Runs env m).1, (Runs env m).2.1,
    executionDigestsResult (Runs env m).1.reader (Runs env m).2.2 run b e)

/-- The raise-or-return part of `SourceFileList`: `None` on an unknown run,
else the ordered list of `(host_name, file_path)` keys. -/
def sourceFileListResult (rd : Option DebugDataReader)
    (runs : List (String × List (String × List String))) (run : String) :
    Except PyError (Option (List (String × String))) :=
  if (runs.map Prod.fst).contains run then
    match rd with
    | none => .error (.attributeError "NoneType object has no attribute keys")
    | some r => .ok (some r.source_file_keys)
  else
    .ok none

/-- `SourceFileList(run)`: call `Runs()`, then compute the result from the
post-call reader and the returned mapping. -/
def SourceFileList (env : ConstructResult) (m : DebuggerV2EventMultiplexer)
    (run : String) :
    DebuggerV2EventMultiplexer × Effects × Except PyError (Option (List (String × String))) :=
  ((Runs env m).1, (Runs env m).2.1,
    sourceFileListResult (Runs env m).1.reader (Runs env m).2.2 run)

/-- Python list indexing `l[i]` for an `int` index: non-negative indices
address from the front, negative indices from the back (`l[len+i]`), and
anything outside `-len <= i < len` is an `IndexError` (`none`). -/
def pyListGet {α : Type} (l : List α) (i : Int) : Option α :=
  if 0 ≤ i then l.get? i.toNat
  else if 0 ≤ i + (l.length : Int) then l.get? (i + (l.length : Int)).toNat
  else none

/-- The success payload of `SourceLines`. -/
structure SourceLinesResult where
  host_name : String
  file_path : String
  lines : List String
deriving Repr, DecidableEq

/-- The raise-or-return part of `SourceLines`: `None` on an unknown run;
index into the source-file-key list with Python indexing, re-raising
`IndexError` with a fixed message on failure; else return host, path, and
`self._reader.source_lines(host_name, file_path)`. -/
def sourceLinesResult (rd : Option DebugDataReader)
    (runs : List (String × List (String × List String))) (run : String) (index : Int) :
    Except PyError (Option SourceLinesResult) :=
  if (runs.map Prod.fst).contains run then
    match rd with
    | none => .error (.attributeError "NoneType object has no attribute keys")
    | some r =>
      match pyListGet r.source_file_keys index with
      | none => .error (.indexError
          ("There is no source-code file at index " ++ toString index))
      | some hp =>
        .ok (some
          { host_name := hp.1
            file_path := hp.2
            lines := r.source_lines hp.1 hp.2 })
  else
    .ok none

/-- `SourceLines(run, index)`: call `Runs()`, then compute the result from
the post-call reader and the returned mapping. -/
def SourceLines (env : ConstructResult) (m : DebuggerV2EventMultiplexer)
    (run : String) (index : Int) :
    DebuggerV2EventMultiplexer × Effects × Except PyError (Option SourceLinesResult) :=
  ((Runs env m).1, (Runs env m).2.1,
    sourceLinesResult (Runs env m).1.reader (Runs env m).2.2 run index)

/-- One façade call, for reasoning about call traces.  Calls that may
construct the reader carry the construction outcome of their moment. -/
inductive Call where
  | runs (env : ConstructResult)
  | firstEventTimestamp (run : String)
  | executionDigests (env : ConstructResult) (run : String) (b e : Int)
  | sourceFileList (env : ConstructResult) (run : String)
  | sourceLines (env : ConstructResult) (run : String) (index : Int)

/-- State-and-effect view of one façade call. -/
def step (m : DebuggerV2EventMultiplexer) (c : Call) :
    DebuggerV2EventMultiplexer × Effects :=
  match c with
  | .runs env => ((Runs env m).1, (Runs env m).2.1)
  | .firstEventTimestamp _ => (m, ⟨0, 0⟩)
  | .executionDigests env run b e =>
    ((ExecutionDigests env m run b e).1, (ExecutionDigests env m run b e).2.1)
  | .sourceFileList env run =>
    ((SourceFileList env m run).1, (SourceFileList env m run).2.1)
  | .sourceLines env run i =>
    ((SourceLines env m run i).1, (SourceLines env m run i).2.1)

/-- Run a trace of calls, returning the final state and the total number of
construction attempts and background launches over the whole trace. -/
def runTrace (m : DebuggerV2EventMultiplexer) :
    List Call → DebuggerV2EventMultiplexer × Nat × Nat
  | [] => (m, 0, 0)
  | c :: cs =>
    ((runTrace (step m c).1 cs).1,
     (step m c).2.constructionAttempts + (runTrace (step m c).1 cs).2.1,
     (step m c).2.backgroundLaunches + (runTrace (step m c).1 cs).2.2)

/-- `true` exactly on a raised `ValueError`. -/
def isValueError {α : Type} : Except PyError α → Bool
  | .error (.valueError _) => true
  | _ => false

/-- `true` exactly on a raised `IndexError`. -/
def isIndexError {α : Type} : Except PyError α → Bool
  | .error (.indexError _) => true
  | _ => false

/-- A sample ingested digest sequence with five entries. -/
def sampleDigests : List ExecutionDigest :=
  [⟨100, "MatMul", [0]⟩, ⟨101, "Relu", [0, 1]⟩, ⟨102, "Add", []⟩,
   ⟨103, "Conv2D", [2]⟩, ⟨104, "Softmax", [1]⟩]

/-- Sample source-line content keyed by host name. -/
def sampleSourceLines (host : String) (_path : String) : List String :=
  if host = "host1" then ["import foo", "foo.bar()"] else ["x = 1"]

/-- A sample active reader with five digests and two source files. -/
def sampleReader : DebugDataReader :=
  { execution_digests := sampleDigests
    source_file_keys := [("host1", "/a.py"), ("host2", "/b.py")]
    source_lines := sampleSourceLines
    starting_wall_time := 1234 }

/-- A façade in the active state holding `sampleReader`. -/
def sampleMux : DebuggerV2EventMultiplexer :=
  { logdir := "/tmp/logdir", reader := some sampleReader }

/-- A freshly constructed façade over an empty logdir. -/
def absentMux : DebuggerV2EventMultiplexer := mkMultiplexer "/tmp/empty"

/-! ## Basic reduction lemmas -/

/-- With an already-assigned reader, `Runs()` changes nothing, performs no
construction attempt or launch, and returns the default mapping. -/
theorem Runs_some (env : ConstructResult) (m : DebuggerV2EventMultiplexer)
    (r : DebugDataReader) (h : m.reader = some r) :
    Runs env m = (m, ⟨0, 0⟩, defaultRuns) := by
  obtain ⟨l, rd⟩ := m
  cases h
  rfl

/-- The reserved run name is a key of the default `Runs()` mapping. -/
theorem contains_default :
    ((defaultRuns.map Prod.fst).contains DEFAULT_DEBUGGER_RUN_NAME) = true := by
  decide

/-! ## C1: caching of the "absent" state -/

/-- C1 (counterexample): after `Runs()` fails to construct the reader (no
debug data: `ValueError`), the absent outcome is not cached — the very next
`Runs()` call performs another construction attempt (1, not 0). -/
theorem runs_absent_retry_counterexample :
    absentMux.reader = none ∧
    (Runs .valueError absentMux).2.2 = [] ∧
    (Runs .valueError absentMux).2.1.constructionAttempts = 1 ∧
    (Runs .valueError (Runs .valueError absentMux).1).2.2 = [] ∧
    (Runs .valueError (Runs .valueError absentMux).1).2.1.constructionAttempts = 1 :=
  ⟨rfl, rfl, rfl, rfl, rfl⟩

/-- C1 (amended): when construction fails with `ValueError` (no data) or
`AttributeError` (missing reader class), `Runs()` returns the empty mapping
but leaves the façade unchanged (reader still null), so every one of `n`
consecutive such calls re-attempts construction — `n` calls make `n`
construction attempts and launch no background task. -/
theorem runs_absent_not_cached (m : DebuggerV2EventMultiplexer) (n : Nat)
    (h : m.reader = none) :
    (Runs .valueError m).2.2 = [] ∧
    (Runs .attributeError m).2.2 = [] ∧
    (Runs .valueError m).1 = m ∧
    (Runs .attributeError m).1 = m ∧
    (Runs .valueError m).2.1.constructionAttempts = 1 ∧
    (Runs .attributeError m).2.1.constructionAttempts = 1 ∧
    runTrace m (List.replicate n (.runs .valueError)) = (m, n, 0) := by
  obtain ⟨l, rd⟩ := m
  cases h
  refine ⟨rfl, rfl, rfl, rfl, rfl, rfl, ?_⟩
  induction n with
  | zero => rfl
  | succ k ih =>
    rw [List.replicate_succ]
    have hs : step { logdir := l, reader := none } (Call.runs ConstructResult.valueError)
        = ({ logdir := l, reader := none }, ⟨1, 0⟩) := rfl
    simp only [runTrace, hs, ih, Nat.zero_add, Nat.add_zero]
    rw [Nat.add_comm 1 k]

/-- Witness for `runs_absent_not_cached` at a concrete façade and `n = 2`. -/
theorem runs_absent_not_cached_witness :
    (Runs .valueError absentMux).2.2 = [] ∧
    (Runs .attributeError absentMux).2.2 = [] ∧
    (Runs .valueError absentMux).1 = absentMux ∧
    (Runs .attributeError absentMux).1 = absentMux ∧
    (Runs .valueError absentMux).2.1.constructionAttempts = 1 ∧
    (Runs .attributeError absentMux).2.1.constructionAttempts = 1 ∧
    runTrace absentMux (List.replicate 2 (.runs .valueError)) = (absentMux, 2, 0) :=
  runs_absent_not_cached absentMux 2 rfl

/-! ## C6: lazy at-most-once construction, active state never reverts -/

/-- C6 (counterexample): `FirstEventTimestamp` is a query method that needs
data, yet calling it first on an uninitialized façade attempts no
construction at all — it raises instead. -/
theorem firstEventTimestamp_no_construction_counterexample :
    absentMux.reader = none ∧
    step absentMux (Call.firstEventTimestamp DEFAULT_DEBUGGER_RUN_NAME)
      = (absentMux, ⟨0, 0⟩) ∧
    isValueError (FirstEventTimestamp absentMux DEFAULT_DEBUGGER_RUN_NAME) = true :=
  ⟨rfl, rfl, rfl⟩

/-- C6 (amended): the reader reference starts null; `Runs`,
`ExecutionDigests`, `SourceFileList` and `SourceLines` each attempt
construction exactly once per call while the reader is null
(`FirstEventTimestamp` never attempts construction); a successful
construction assigns the reader and launches background ingestion once; and
once the reader is non-null, no call changes the façade state or attempts
construction again. -/
theorem lazy_construction_once :
    (∀ l, (mkMultiplexer l).reader = none) ∧
    (∀ m c r, m.reader = some r → step m c = (m, ⟨0, 0⟩)) ∧
    (∀ m env, m.reader = none →
      (step m (.runs env)).2.constructionAttempts = 1) ∧
    (∀ m env run b e, m.reader = none →
      (step m (.executionDigests env run b e)).2.constructionAttempts = 1) ∧
    (∀ m env run, m.reader = none →
      (step m (.sourceFileList env run)).2.constructionAttempts = 1) ∧
    (∀ m env run i, m.reader = none →
      (step m (.sourceLines env run i)).2.constructionAttempts = 1) ∧
    (∀ m run, (step m (.firstEventTimestamp run)).2 = ⟨0, 0⟩) ∧
    (∀ m r, m.reader = none →
      step m (.runs (.ok r true)) = ({ m with reader := some r }, ⟨1, 1⟩)) := by
  refine ⟨fun _ => rfl, ?_, ?_, ?_, ?_, ?_, fun _ _ => rfl, ?_⟩
  · intro m c r h
    obtain ⟨l, rd⟩ := m
    cases h
    cases c <;> rfl
  · intro m env h
    obtain ⟨l, rd⟩ := m
    cases h
    cases env with
    | ok r hasUpdate => cases hasUpdate <;> rfl
    | attributeError => rfl
    | valueError => rfl
  · intro m env run b e h
    obtain ⟨l, rd⟩ := m
    cases h
    cases env with
    | ok r hasUpdate => cases hasUpdate <;> rfl
    | attributeError => rfl
    | valueError => rfl
  · intro m env run h
    obtain ⟨l, rd⟩ := m
    cases h
    cases env with
    | ok r hasUpdate => cases hasUpdate <;> rfl
    | attributeError => rfl
    | valueError => rfl
  · intro m env run i h
    obtain ⟨l, rd⟩ := m
    cases h
    cases env with
    | ok r hasUpdate => cases hasUpdate <;> rfl
    | attributeError => rfl
    | valueError => rfl
  · intro m r h
    obtain ⟨l, rd⟩ := m
    cases h
    rfl

/-- Witness for `lazy_construction_once` at concrete inputs. -/
theorem lazy_construction_once_witness :
    (mkMultiplexer "/tmp/d").reader = none ∧
    step sampleMux (.runs .valueError) = (sampleMux, ⟨0, 0⟩) ∧
    (step absentMux (.runs .valueError)).2.constructionAttempts = 1 ∧
    (step absentMux (.executionDigests .valueError "r" 0 0)).2.constructionAttempts = 1 ∧
    (step absentMux (.sourceFileList .valueError "r")).2.constructionAttempts = 1 ∧
    (step absentMux (.sourceLines .valueError "r" 0)).2.constructionAttempts = 1 ∧
    (step absentMux (.firstEventTimestamp "r")).2 = ⟨0, 0⟩ ∧
    step absentMux (.runs (.ok sampleReader true))
      = ({ absentMux with reader := some sampleReader }, ⟨1, 1⟩) :=
  ⟨lazy_construction_once.1 "/tmp/d",
   lazy_construction_once.2.1 sampleMux (.runs .valueError) sampleReader rfl,
   lazy_construction_once.2.2.1 absentMux .valueError rfl,
   lazy_construction_once.2.2.2.1 absentMux .valueError "r" 0 0 rfl,
   lazy_construction_once.2.2.2.2.1 absentMux .valueError "r" rfl,
   lazy_construction_once.2.2.2.2.2.1 absentMux .valueError "r" 0 rfl,
   lazy_construction_once.2.2.2.2.2.2.1 absentMux "r",
   lazy_construction_once.2.2.2.2.2.2.2 absentMux sampleReader rfl⟩

/-! ## C5: FirstEventTimestamp -/

/-- C5: `FirstEventTimestamp(run)` raises the no-runs `ValueError` (the
spec's not-found error) when no reader has been constructed; raises the
wrong-run-name `ValueError` (the spec's invalid-argument error) when the
store is active but `run` is not the reserved run name; and otherwise
returns the reader's starting wall-clock time. -/
theorem firstEventTimestamp_spec (m : DebuggerV2EventMultiplexer)
    (r : DebugDataReader) (run : String) :
    (m.reader = none →
      FirstEventTimestamp m run = .error (.valueError "No tfdbg2 runs exists.")) ∧
    (m.reader = some r → run ≠ DEFAULT_DEBUGGER_RUN_NAME →
      FirstEventTimestamp m run = .error (.valueError
        ("Expected run name to be " ++ DEFAULT_DEBUGGER_RUN_NAME
          ++ ", but got " ++ run))) ∧
    (m.reader = some r → run = DEFAULT_DEBUGGER_RUN_NAME →
      FirstEventTimestamp m run = .ok r.starting_wall_time) := by
  refine ⟨?_, ?_, ?_⟩
  · intro h
    obtain ⟨l, rd⟩ := m
    cases h
    rfl
  · intro h hrun
    obtain ⟨l, rd⟩ := m
    cases h
    simp [FirstEventTimestamp, hrun]
  · intro h hrun
    obtain ⟨l, rd⟩ := m
    cases h
    subst hrun
    simp [FirstEventTimestamp]

/-- Witness for `firstEventTimestamp_spec`: all three cases at concrete
façades. -/
theorem firstEventTimestamp_spec_witness :
    FirstEventTimestamp absentMux DEFAULT_DEBUGGER_RUN_NAME
      = .error (.valueError "No tfdbg2 runs exists.") ∧
    FirstEventTimestamp sampleMux "other_run"
      = .error (.valueError
          ("Expected run name to be " ++ DEFAULT_DEBUGGER_RUN_NAME
            ++ ", but got " ++ "other_run")) ∧
    FirstEventTimestamp sampleMux DEFAULT_DEBUGGER_RUN_NAME = .ok 1234 :=
  ⟨(firstEventTimestamp_spec absentMux sampleReader DEFAULT_DEBUGGER_RUN_NAME).1 rfl,
   (firstEventTimestamp_spec sampleMux sampleReader "other_run").2.1 rfl (by decide),
   (firstEventTimestamp_spec sampleMux sampleReader DEFAULT_DEBUGGER_RUN_NAME).2.2 rfl rfl⟩

/-! ## C7: unknown runs yield None, never an exception -/

/-- C7: for a run name absent from the mapping `Runs()` returns,
`ExecutionDigests`, `SourceFileList` and `SourceLines` all return `None`
without raising, regardless of the remaining arguments. -/
theorem unknown_run_returns_none (env : ConstructResult)
    (m : DebuggerV2EventMultiplexer) (run : String) (b e i : Int)
    (h : (((Runs env m).2.2.map Prod.fst).contains run) = false) :
    (ExecutionDigests env m run b e).2.2 = .ok none ∧
    (SourceFileList env m run).2.2 = .ok none ∧
    (SourceLines env m run i).2.2 = .ok none := by
  have h1 : ¬ ((((Runs env m).2.2.map Prod.fst).contains run) = true) := by
    rw [h]
    simp
  refine ⟨?_, ?_, ?_⟩
  · show executionDigestsResult (Runs env m).1.reader (Runs env m).2.2 run b e = .ok none
    rw [executionDigestsResult.eq_def, if_neg h1]
  · show sourceFileListResult (Runs env m).1.reader (Runs env m).2.2 run = .ok none
    rw [sourceFileListResult.eq_def, if_neg h1]
  · show sourceLinesResult (Runs env m).1.reader (Runs env m).2.2 run i = .ok none
    rw [sourceLinesResult.eq_def, if_neg h1]

/-- Witness for `unknown_run_returns_none` at a concrete unknown run. -/
theorem unknown_run_returns_none_witness :
    (ExecutionDigests .valueError sampleMux "no_such_run" (-3) 99).2.2 = .ok none ∧
    (SourceFileList .valueError sampleMux "no_such_run").2.2 = .ok none ∧
    (SourceLines .valueError sampleMux "no_such_run" 7).2.2 = .ok none :=
  unknown_run_returns_none .valueError sampleMux "no_such_run" (-3) 99 7 (by decide)

/-! ## ExecutionDigests: reduction lemma -/

/-- With an active reader and the reserved run name, `executionDigestsResult`
reduces to the validation-and-slice expression of the source. -/
theorem executionDigestsResult_default (r : DebugDataReader) (b e : Int) :
    executionDigestsResult (some r) defaultRuns DEFAULT_DEBUGGER_RUN_NAME b e =
      (if b < 0 then
        .error (.indexError ("Invalid begin index (" ++ toString b ++ ")"))
       else if (r.execution_digests.length : Int) < e then
        .error (.indexError
          ("end index (" ++ toString e ++ ") out of bounds ("
            ++ toString r.execution_digests.length ++ ")"))
       else if 0 ≤ e ∧ e < b then
        .error (.valueError
          ("end index (" ++ toString e ++ ") is unexpected less than begin index ("
            ++ toString b ++ ")"))
       else
        .ok (some
          { begin_ := b
            end_ := if e < 0 then (r.execution_digests.length : Int) else e
            num_digests := r.execution_digests.length
            execution_digests :=
              ((r.execution_digests.take
                  (if e < 0 then (r.execution_digests.length : Int) else e).toNat).drop
                b.toNat).map execution_digest_to_json })) := by
  rw [executionDigestsResult.eq_def, if_pos contains_default]

/-! ## C2: in-range ExecutionDigests -/

/-- C2: for the known run and `0 ≤ begin ≤ end ≤ total`, `ExecutionDigests`
succeeds, echoes `begin` and `end`, reports the current total digest count,
and returns the serialized half-open slice `[begin, end)` of the store's
digest sequence — exactly `end - begin` digests in ingestion order. -/
theorem executionDigests_in_range (env : ConstructResult)
    (m : DebuggerV2EventMultiplexer) (r : DebugDataReader) (b e : Int)
    (hr : m.reader = some r) (hb : 0 ≤ b) (hbe : b ≤ e)
    (he : e ≤ (r.execution_digests.length : Int)) :
    ExecutionDigests env m DEFAULT_DEBUGGER_RUN_NAME b e =
      (m, ⟨0, 0⟩, .ok (some
        { begin_ := b
          end_ := e
          num_digests := r.execution_digests.length
          execution_digests :=
            ((r.execution_digests.drop b.toNat).take (e - b).toNat).map
              execution_digest_to_json })) ∧
    (((r.execution_digests.drop b.toNat).take (e - b).toNat).map
        execution_digest_to_json).length = (e - b).toNat := by
  have hR : Runs env m = (m, ⟨0, 0⟩, defaultRuns) := Runs_some env m r hr
  have hslice : (r.execution_digests.take e.toNat).drop b.toNat
      = (r.execution_digests.drop b.toNat).take (e - b).toNat := by
    rw [List.drop_take]
    congr 1
    omega
  constructor
  · simp only [ExecutionDigests, hR, hr]
    rw [executionDigestsResult_default,
      if_neg (by omega), if_neg (by omega), if_neg (by omega), if_neg (by omega)]
    rw [hslice]
  · rw [List.length_map, List.length_take, List.length_drop]
    omega

/-- Witness for `executionDigests_in_range`: slice `[1, 3)` of the five
sample digests. -/
theorem executionDigests_in_range_witness :
    ExecutionDigests .valueError sampleMux DEFAULT_DEBUGGER_RUN_NAME 1 3 =
      (sampleMux, ⟨0, 0⟩, .ok (some
        { begin_ := 1
          end_ := 3
          num_digests := sampleReader.execution_digests.length
          execution_digests :=
            ((sampleReader.execution_digests.drop (1 : Int).toNat).take
                ((3 : Int) - 1).toNat).map execution_digest_to_json })) ∧
    (((sampleReader.execution_digests.drop (1 : Int).toNat).take
        ((3 : Int) - 1).toNat).map execution_digest_to_json).length
      = ((3 : Int) - 1).toNat :=
  executionDigests_in_range .valueError sampleMux sampleReader 1 3 rfl
    (by decide) (by decide) (by decide)

/-! ## C3: sentinel end resolves to the current total -/

/-- C3: for the known run, `0 ≤ begin ≤ total` and a negative sentinel
`end`, `ExecutionDigests` resolves `end` to the current total digest count
and returns all digests from `begin` to the end of the ingested sequence. -/
theorem executionDigests_sentinel (env : ConstructResult)
    (m : DebuggerV2EventMultiplexer) (r : DebugDataReader) (b e : Int)
    (hr : m.reader = some r) (hb : 0 ≤ b)
    (_hbl : b ≤ (r.execution_digests.length : Int)) (he : e < 0) :
    ExecutionDigests env m DEFAULT_DEBUGGER_RUN_NAME b e =
      (m, ⟨0, 0⟩, .ok (some
        { begin_ := b
          end_ := (r.execution_digests.length : Int)
          num_digests := r.execution_digests.length
          execution_digests :=
            (r.execution_digests.drop b.toNat).map execution_digest_to_json })) ∧
    ((r.execution_digests.drop b.toNat).map execution_digest_to_json).length
      = r.execution_digests.length - b.toNat := by
  have hR : Runs env m = (m, ⟨0, 0⟩, defaultRuns) := Runs_some env m r hr
  constructor
  · simp only [ExecutionDigests, hR, hr]
    rw [executionDigestsResult_default,
      if_neg (by omega), if_neg (by omega), if_neg (by omega), if_pos he,
      Int.toNat_natCast, List.take_length]
  · rw [List.length_map, List.length_drop]

/-- Witness for `executionDigests_sentinel`: the spec scenario — five
ingested digests, `ExecutionDigests(run, 3, -1)` gives `begin=3`, `end=5`,
`num_digests=5` and the last two digests. -/
theorem executionDigests_sentinel_witness :
    ExecutionDigests .valueError sampleMux DEFAULT_DEBUGGER_RUN_NAME 3 (-1) =
      (sampleMux, ⟨0, 0⟩, .ok (some
        { begin_ := 3
          end_ := 5
          num_digests := 5
          execution_digests :=
            [⟨103, "Conv2D", [2]⟩, ⟨104, "Softmax", [1]⟩] })) ∧
    ((sampleReader.execution_digests.drop (3 : Int).toNat).map
        execution_digest_to_json).length = 2 :=
  executionDigests_sentinel .valueError sampleMux sampleReader 3 (-1) rfl
    (by decide) (by decide) (by decide)

/-! ## C9: no begin-vs-total check under the sentinel end -/

/-- C9: with a negative sentinel `end`, no `begin`-vs-total bounds check is
performed — a `begin` beyond the current total succeeds, echoing the
unchanged `begin`, resolving `end` to the total (so resolved `begin`
exceeds resolved `end`), with an empty digest list. -/
theorem executionDigests_sentinel_skips_begin_check (env : ConstructResult)
    (m : DebuggerV2EventMultiplexer) (r : DebugDataReader) (b e : Int)
    (hr : m.reader = some r) (hb : (r.execution_digests.length : Int) < b)
    (he : e < 0) :
    ExecutionDigests env m DEFAULT_DEBUGGER_RUN_NAME b e =
      (m, ⟨0, 0⟩, .ok (some
        { begin_ := b
          end_ := (r.execution_digests.length : Int)
          num_digests := r.execution_digests.length
          execution_digests := [] })) := by
  have hR : Runs env m = (m, ⟨0, 0⟩, defaultRuns) := Runs_some env m r hr
  simp only [ExecutionDigests, hR, hr]
  rw [executionDigestsResult_default,
    if_neg (by omega), if_neg (by omega), if_neg (by omega), if_pos he,
    Int.toNat_natCast, List.take_length,
    List.drop_eq_nil_of_le (by omega), List.map_nil]

/-- Witness for `executionDigests_sentinel_skips_begin_check`: five ingested
digests, `begin = 7`, `end = -1`. -/
theorem executionDigests_sentinel_skips_begin_check_witness :
    ExecutionDigests .valueError sampleMux DEFAULT_DEBUGGER_RUN_NAME 7 (-1) =
      (sampleMux, ⟨0, 0⟩, .ok (some
        { begin_ := 7
          end_ := 5
          num_digests := 5
          execution_digests := [] })) :=
  executionDigests_sentinel_skips_begin_check .valueError sampleMux sampleReader
    7 (-1) rfl (by decide) (by decide)

/-! ## C4: validation errors of ExecutionDigests -/

/-- C4 (counterexample): at `begin = 10`, `end = 7` with five digests, `end`
is non-negative and less than `begin`, yet the call fails with the range
(`IndexError`) message — not the invalid-argument (`ValueError`) the claim
requires for every such input — because the `end > total` check fires
first. -/
theorem executionDigests_overlap_counterexample :
    ((0 : Int) ≤ 7 ∧ (7 : Int) < 10) ∧
    (ExecutionDigests .valueError sampleMux DEFAULT_DEBUGGER_RUN_NAME 10 7).2.2
      = .error (.indexError "end index (7) out of bounds (5)") ∧
    isValueError
      (ExecutionDigests .valueError sampleMux DEFAULT_DEBUGGER_RUN_NAME 10 7).2.2
      = false :=
  ⟨by decide, rfl, rfl⟩

/-- C4 (amended): for the known run, `ExecutionDigests` fails with a range
error (`IndexError`) whenever `begin < 0` or `end` exceeds the current
total; and fails with an invalid-argument error (`ValueError`) whenever
`end` is non-negative, within the total, and less than `begin` — the
ordering check only applies once the range checks pass. -/
theorem executionDigests_validation (env : ConstructResult)
    (m : DebuggerV2EventMultiplexer) (r : DebugDataReader) (b e : Int)
    (hr : m.reader = some r) :
    ((b < 0 ∨ (r.execution_digests.length : Int) < e) →
      isIndexError (ExecutionDigests env m DEFAULT_DEBUGGER_RUN_NAME b e).2.2 = true) ∧
    (0 ≤ b → 0 ≤ e → e ≤ (r.execution_digests.length : Int) → e < b →
      isValueError (ExecutionDigests env m DEFAULT_DEBUGGER_RUN_NAME b e).2.2 = true) := by
  have hR : Runs env m = (m, ⟨0, 0⟩, defaultRuns) := Runs_some env m r hr
  constructor
  · intro hcond
    simp only [ExecutionDigests, hR, hr]
    rw [executionDigestsResult_default]
    by_cases hb0 : b < 0
    · rw [if_pos hb0]
      rfl
    · rw [if_neg hb0, if_pos (hcond.resolve_left hb0)]
      rfl
  · intro hb0 he0 het heb
    simp only [ExecutionDigests, hR, hr]
    rw [executionDigestsResult_default,
      if_neg (by omega), if_neg (by omega), if_pos ⟨he0, heb⟩]
    rfl

/-- Witness for `executionDigests_validation`: a negative `begin` gives a
range error, and `begin = 2, end = 1` (both within the total) gives an
invalid-argument error. -/
theorem executionDigests_validation_witness :
    isIndexError
      (ExecutionDigests .valueError sampleMux DEFAULT_DEBUGGER_RUN_NAME (-1) 2).2.2
      = true ∧
    isValueError
      (ExecutionDigests .valueError sampleMux DEFAULT_DEBUGGER_RUN_NAME 2 1).2.2
      = true :=
  ⟨(executionDigests_validation .valueError sampleMux sampleReader (-1) 2 rfl).1
      (Or.inl (by decide)),
   (executionDigests_validation .valueError sampleMux sampleReader 2 1 rfl).2
      (by decide) (by decide) (by decide) (by decide)⟩

/-! ## SourceLines: indexing lemmas -/

/-- Python indexing fails exactly outside `-len ≤ i < len`. -/
theorem pyListGet_none_iff {α : Type} (l : List α) (i : Int) :
    pyListGet l i = none ↔
      (i < -(l.length : Int) ∨ (l.length : Int) ≤ i) := by
  unfold pyListGet
  split_ifs with h1 h2
  · rw [List.get?_eq_none]
    omega
  · rw [List.get?_eq_none]
    omega
  · constructor
    · intro _
      left
      omega
    · intro _
      rfl

/-- Python indexing at a non-negative in-range index reads position `i`. -/
theorem pyListGet_nonneg {α : Type} (l : List α) (i : Int) (d : α)
    (h0 : 0 ≤ i) (h1 : i < (l.length : Int)) :
    pyListGet l i = some (l.getD i.toNat d) := by
  unfold pyListGet
  rw [if_pos h0]
  cases hx : l.get? i.toNat with
  | none =>
    rw [List.get?_eq_none] at hx
    omega
  | some x =>
    have hgd : l.getD i.toNat d = x := by
      show (l.get? i.toNat).getD d = x
      rw [hx]
      rfl
    rw [hgd]

/-- Python indexing at a negative in-range index reads position `len + i`. -/
theorem pyListGet_neg {α : Type} (l : List α) (i : Int) (d : α)
    (h0 : i < 0) (h1 : -(l.length : Int) ≤ i) :
    pyListGet l i = some (l.getD (i + (l.length : Int)).toNat d) := by
  unfold pyListGet
  rw [if_neg (by omega), if_pos (by omega)]
  cases hx : l.get? (i + (l.length : Int)).toNat with
  | none =>
    rw [List.get?_eq_none] at hx
    omega
  | some x =>
    have hgd : l.getD (i + (l.length : Int)).toNat d = x := by
      show (l.get? (i + (l.length : Int)).toNat).getD d = x
      rw [hx]
      rfl
    rw [hgd]

/-- With an active reader and the reserved run name, `sourceLinesResult`
reduces to the index-and-fetch expression of the source. -/
theorem sourceLinesResult_default (r : DebugDataReader) (index : Int) :
    sourceLinesResult (some r) defaultRuns DEFAULT_DEBUGGER_RUN_NAME index =
      (match pyListGet r.source_file_keys index with
       | none => .error (.indexError
           ("There is no source-code file at index " ++ toString index))
       | some hp =>
         .ok (some
           { host_name := hp.1
             file_path := hp.2
             lines := r.source_lines hp.1 hp.2 })) := by
  rw [sourceLinesResult.eq_def, if_pos contains_default]

/-! ## C8: SourceLines range errors and in-range reads -/

/-- C8 (counterexample): with two source-file keys, index `-1` lies outside
the position sequence `0..1`, yet `SourceLines` does not fail — it returns
the last key's host, path and lines, so "fails exactly when the index is
outside the sequence" is false as stated. -/
theorem sourceLines_negative_index_counterexample :
    ¬ (0 ≤ (-1 : Int) ∧
        (-1 : Int) < (sampleReader.source_file_keys.length : Int)) ∧
    (SourceLines .valueError sampleMux DEFAULT_DEBUGGER_RUN_NAME (-1)).2.2 =
      .ok (some
        { host_name := "host2"
          file_path := "/b.py"
          lines := ["x = 1"] }) :=
  ⟨by decide, rfl⟩

/-- C8 (amended): for the known run, `SourceLines` fails with a range error
exactly when the index is outside the Python-indexable range
`-n ≤ index < n` of the `n` source-file keys (negative indices address from
the end), and for `0 ≤ index < n` returns the host and path of the key at
position `index` together with that file's lines fetched from the store. -/
theorem sourceLines_spec (env : ConstructResult)
    (m : DebuggerV2EventMultiplexer) (r : DebugDataReader) (index : Int)
    (hr : m.reader = some r) :
    (isIndexError (SourceLines env m DEFAULT_DEBUGGER_RUN_NAME index).2.2 = true ↔
      (index < -(r.source_file_keys.length : Int) ∨
        (r.source_file_keys.length : Int) ≤ index)) ∧
    (0 ≤ index → index < (r.source_file_keys.length : Int) →
      (SourceLines env m DEFAULT_DEBUGGER_RUN_NAME index).2.2 =
        .ok (some
          { host_name := (r.source_file_keys.getD index.toNat ("", "")).1
            file_path := (r.source_file_keys.getD index.toNat ("", "")).2
            lines := r.source_lines (r.source_file_keys.getD index.toNat ("", "")).1
                (r.source_file_keys.getD index.toNat ("", "")).2 })) := by
  have hR : Runs env m = (m, ⟨0, 0⟩, defaultRuns) := Runs_some env m r hr
  constructor
  · simp only [SourceLines, hR, hr]
    rw [sourceLinesResult_default]
    cases hx : pyListGet r.source_file_keys index with
    | none =>
      simp only [isIndexError]
      constructor
      · intro _
        exact (pyListGet_none_iff r.source_file_keys index).mp hx
      · intro _
        trivial
    | some hp =>
      simp only [isIndexError]
      constructor
      · intro hfalse
        cases hfalse
      · intro hcond
        have hnone := (pyListGet_none_iff r.source_file_keys index).mpr hcond
        rw [hx] at hnone
        cases hnone
  · intro h0 h1
    simp only [SourceLines, hR, hr]
    rw [sourceLinesResult_default, pyListGet_nonneg r.source_file_keys index ("", "") h0 h1]

/-- Witness for `sourceLines_spec` at index 0 of the two sample keys. -/
theorem sourceLines_spec_witness :
    (isIndexError (SourceLines .valueError sampleMux DEFAULT_DEBUGGER_RUN_NAME 0).2.2 = true ↔
      ((0 : Int) < -(sampleReader.source_file_keys.length : Int) ∨
        (sampleReader.source_file_keys.length : Int) ≤ 0)) ∧
    (SourceLines .valueError sampleMux DEFAULT_DEBUGGER_RUN_NAME 0).2.2 =
      .ok (some
        { host_name := "host1"
          file_path := "/a.py"
          lines := ["import foo", "foo.bar()"] }) :=
  ⟨(sourceLines_spec .valueError sampleMux sampleReader 0 rfl).1,
   (sourceLines_spec .valueError sampleMux sampleReader 0 rfl).2
      (by decide) (by decide)⟩

/-! ## C10: negative SourceLines indices address from the end -/

/-- C10: for the known run with `n` source-file keys, `SourceLines` with
`-n ≤ index ≤ -1` succeeds, returning the key at position `n + index`
(counting from the end) and its lines; a range error implies the index is
at least `n` or below `-n`. -/
theorem sourceLines_negative_index (env : ConstructResult)
    (m : DebuggerV2EventMultiplexer) (r : DebugDataReader) (index : Int)
    (hr : m.reader = some r) :
    ((-(r.source_file_keys.length : Int) ≤ index → index ≤ -1 →
      (SourceLines env m DEFAULT_DEBUGGER_RUN_NAME index).2.2 =
        .ok (some
          { host_name :=
              (r.source_file_keys.getD
                (index + (r.source_file_keys.length : Int)).toNat ("", "")).1
            file_path :=
              (r.source_file_keys.getD
                (index + (r.source_file_keys.length : Int)).toNat ("", "")).2
            lines :=
              r.source_lines
                (r.source_file_keys.getD
                  (index + (r.source_file_keys.length : Int)).toNat ("", "")).1
                (r.source_file_keys.getD
                  (index + (r.source_file_keys.length : Int)).toNat ("", "")).2 })) ∧
     (isIndexError (SourceLines env m DEFAULT_DEBUGGER_RUN_NAME index).2.2 = true →
      ((r.source_file_keys.length : Int) ≤ index ∨
        index < -(r.source_file_keys.length : Int)))) := by
  have hR : Runs env m = (m, ⟨0, 0⟩, defaultRuns) := Runs_some env m r hr
  constructor
  · intro h1 h0
    simp only [SourceLines, hR, hr]
    rw [sourceLinesResult_default,
      pyListGet_neg r.source_file_keys index ("", "") (by omega) h1]
  · intro herr
    simp only [SourceLines, hR, hr] at herr
    rw [sourceLinesResult_default] at herr
    cases hx : pyListGet r.source_file_keys index with
    | none =>
      have := (pyListGet_none_iff r.source_file_keys index).mp hx
      omega
    | some hp =>
      rw [hx] at herr
      simp only [isIndexError] at herr
      cases herr

/-- Witness for `sourceLines_negative_index`: index `-2` of the two sample
keys reads the first key. -/
theorem sourceLines_negative_index_witness :
    (SourceLines .valueError sampleMux DEFAULT_DEBUGGER_RUN_NAME (-2)).2.2 =
      .ok (some
        { host_name := "host1"
          file_path := "/a.py"
          lines := ["import foo", "foo.bar()"] }) :=
  (sourceLines_negative_index .valueError sampleMux sampleReader (-2) rfl).1
    (by decide) (by decide)

end DebuggerV2
